import Mathlib

/-!
Shallow embedding of `src/image_analyzer.py`: a batch pipeline that, for each
profile record `{id, profile_image_url}` of a JSON input file, downloads the
image, computes a perceptual hash, POSTs it to an API endpoint, and collects
one outcome record per job via a thread pool, finally saving all outcomes.

Python dynamic values are modelled by an inductive `Json` type; the external
world (HTTP GET, the imagehash library, HTTP POST) is modelled by per-job
oracle behaviours, and wall-clock time by a natural-number clock threaded
through the pipeline.  The nondeterministic completion order of the thread
pool is modelled by an explicit permutation of the job indices.
-/

namespace ImageAnalyzer

/-- JSON values, standing in for the Python dynamic values that `json.load`
produces (`None`, `bool`, numbers, `str`, `list`, `dict`). -/
inductive Json where
  | null : Json
  | bool (b : Bool) : Json
  | num (n : Int) : Json
  | str (s : String) : Json
  | arr (elems : List Json) : Json
  | obj (fields : List (String × Json)) : Json

/-- The Python type name of a value, used in error messages. -/
def jsonTypeName : Json → String
  | Json.null => "NoneType"
  | Json.bool _ => "bool"
  | Json.num _ => "int"
  | Json.str _ => "str"
  | Json.arr _ => "list"
  | Json.obj _ => "dict"

/-- Association-list lookup for object fields; a missing key yields `null`,
matching Python `dict.get(key)` returning `None`. -/
def lookupField (fields : List (String × Json)) (key : String) : Json :=
  match fields with
  | [] => Json.null
  | (k, v) :: rest => if k = key then v else lookupField rest key

/-- Python `value.get(key)`: succeeds (with `null` for a missing key) on a
dict, raises `AttributeError` on every other value. -/
def pyGet (j : Json) (key : String) : Except String Json :=
  match j with
  | Json.obj fields => Except.ok (lookupField fields key)
  | other => Except.error ("AttributeError: " ++ jsonTypeName other ++ " object has no attribute get")

/-- Python `len(value)`: defined for str, list and dict, raises `TypeError`
otherwise. -/
def pyLen (j : Json) : Except String Nat :=
  match j with
  | Json.str s => Except.ok s.length
  | Json.arr xs => Except.ok xs.length
  | Json.obj fs => Except.ok fs.length
  | other => Except.error ("TypeError: object of type " ++ jsonTypeName other ++ " has no len")

/-- Python truthiness of a value, as used by `if not profiles`. -/
def pyTruthy (j : Json) : Bool :=
  match j with
  | Json.null => false
  | Json.bool b => b
  | Json.num n => n != 0
  | Json.str s => s.length != 0
  | Json.arr xs => xs.length != 0
  | Json.obj fs => fs.length != 0

/-- Python iteration `for profile in profiles`: a list yields its elements, a
string its one-character substrings, a dict its keys. -/
def pyIter (j : Json) : List Json :=
  match j with
  | Json.arr xs => xs
  | Json.str s => s.data.map (fun c => Json.str (String.mk [c]))
  | Json.obj fs => fs.map (fun kv => Json.str kv.fst)
  | _ => []

/-- An in-memory decoded image (`PIL.Image`); its content is opaque to the
pipeline, which only passes it from the fetch stage to the hash stage. -/
structure Image where
  pixels : List Nat
  deriving Repr, DecidableEq, Inhabited

/-- What the network does for one HTTP GET issued by `download_image`:
either `requests.get` raises (connection error / timeout), or a response
with a status code arrives and `Image.open` then either decodes the body or
raises. -/
inductive FetchBehavior where
  | netError (msg : String) : FetchBehavior
  | httpResponse (status : Nat) (decoded : Except String Image) : FetchBehavior

/-- An HTTP response to the API POST: status code and parsed JSON body
(`none` models an empty response text). -/
structure HttpResponse where
  status : Nat
  body : Option Json

/-- What the network does for one HTTP POST issued by `send_to_api`: either
`requests.post` raises a `RequestException` (connection error / timeout), or
a response arrives. -/
inductive PostBehavior where
  | netError (msg : String) : PostBehavior
  | response (resp : HttpResponse) : PostBehavior

/-- The message of the `requests.HTTPError` raised by `raise_for_status`. -/
def httpErrorMsg (status : Nat) : String :=
  toString status ++ (if status < 500 then " Client Error" else " Server Error")

/-- `response.raise_for_status()`: raises `HTTPError` exactly for status
codes 400–599 (4xx client errors and 5xx server errors), and is a no-op for
every other status. -/
def raise_for_status (status : Nat) : Except String Unit :=
  if 400 ≤ status ∧ status < 600 then Except.error (httpErrorMsg status) else Except.ok ()

/-- `download_image(url)`: `requests.get` (may raise), then
`raise_for_status`, then `Image.open` on the body (may raise). Any of the
three failures propagates as an exception to the caller. -/
def download_image (fetch : Json → FetchBehavior) (url : Json) : Except String Image :=
  match fetch url with
  | FetchBehavior.netError msg => Except.error msg
  | FetchBehavior.httpResponse status decoded =>
    match raise_for_status status with
    | Except.error e => Except.error e
    | Except.ok _ => decoded

/-- The dict returned by `send_to_api`: `{success, status_code?, response?}`
on the success path and `{success, error}` on the failure path. -/
structure ApiCallResult where
  success : Bool
  status_code : Option Nat := none
  response : Option Json := none
  error : Option String := none

/-- The JSON payload built by `send_to_api`. -/
def apiPayload (profile_id : Json) (phash : String) : Json :=
  Json.obj [("id", profile_id), ("p_hash", Json.str phash), ("matches", Json.arr [])]

/-- `send_to_api(profile_id, phash)`: POSTs the payload; inside its
`try` it calls `raise_for_status`, and every `RequestException` (network
error, timeout, HTTP error) is caught and turned into a failure dict, so the
function itself never raises. On a non-raising status it returns the status
code and the parsed body (an empty dict for an empty body). -/
def send_to_api (post : Json → PostBehavior) (profile_id : Json) (phash : String) : ApiCallResult :=
  match post (apiPayload profile_id phash) with
  | PostBehavior.netError msg => { success := false, error := some msg }
  | PostBehavior.response resp =>
    match raise_for_status resp.status with
    | Except.error e => { success := false, error := some e }
    | Except.ok _ =>
      { success := true
        status_code := some resp.status
        response := some (match resp.body with | none => Json.obj [] | some b => b) }

/-- The per-record result dict built by `process_profile`. -/
structure Outcome where
  id : Json
  p_hash : Option String
  status : String
  error : Option String
  api_response : Option ApiCallResult
  timestamp : Nat

/-- The external world one job runs against: the HTTP GET behaviour per URL,
the imagehash library (`compute_phash` defers to `imagehash.phash`, modelled
as an oracle that may in principle raise), the HTTP POST behaviour per
payload, and the wall-clock duration of each stage. -/
structure JobWorld where
  fetch : Json → FetchBehavior
  hashFn : Image → Except String String
  post : Json → PostBehavior
  fetchDur : Nat
  hashDur : Nat
  postDur : Nat

/-- The body of `process_profile` from the construction of the result dict
on: the `try` block around the three stages catches every exception, so this
part is a total function returning the final result dict together with the
clock value at which the job finishes. The `timestamp` field is set to the
clock value `t` current when the result dict is constructed. -/
def runPipeline (w : JobWorld) (t : Nat) (profile_id image_url : Json) : Outcome × Nat :=
  match download_image w.fetch image_url with
  | Except.error e =>
    ({ id := profile_id, p_hash := none, status := "failed",
       error := some e, api_response := none, timestamp := t }, t + w.fetchDur)
  | Except.ok image =>
    match w.hashFn image with
    | Except.error e =>
      ({ id := profile_id, p_hash := none, status := "failed",
         error := some e, api_response := none, timestamp := t }, t + w.fetchDur + w.hashDur)
    | Except.ok phash =>
      if (send_to_api w.post profile_id phash).success then
        ({ id := profile_id, p_hash := some phash, status := "success",
           error := none, api_response := some (send_to_api w.post profile_id phash),
           timestamp := t }, t + w.fetchDur + w.hashDur + w.postDur)
      else
        ({ id := profile_id, p_hash := some phash, status := "api_failed",
           error := (send_to_api w.post profile_id phash).error,
           api_response := some (send_to_api w.post profile_id phash),
           timestamp := t }, t + w.fetchDur + w.hashDur + w.postDur)

/-- `process_profile(profile)`: the two `profile.get(...)` calls happen
before the `try` block, so an `AttributeError` raised by them (a non-dict
profile) escapes the function; after them the function always returns the
result dict produced by `runPipeline`. -/
def process_profile (w : JobWorld) (t : Nat) (profile : Json) : Except String (Outcome × Nat) :=
  match pyGet profile "id" with
  | Except.error e => Except.error e
  | Except.ok profile_id =>
    match pyGet profile "profile_image_url" with
    | Except.error e => Except.error e
    | Except.ok image_url => Except.ok (runPipeline w t profile_id image_url)

/-- One submitted future: job `i` runs `process_profile` on the `i`-th input
record against its own world and start time; `future.result()` either yields
the outcome or re-raises the exception the job raised. -/
def jobFuture (env : Nat → JobWorld × Nat) (items : List Json) (i : Nat) : Except String Outcome :=
  Except.map Prod.fst (process_profile (env i).1 (env i).2 (items.getD i Json.null))

/-- The result-collection loop of `main`: iterate over the futures in
completion order, calling `future.result()` on each and appending; the first
re-raised exception aborts the loop (and propagates out of `main`). -/
def collectResults (f : Nat → Except String Outcome) : List Nat → Except String (List Outcome)
  | [] => Except.ok []
  | i :: rest =>
    match f i with
    | Except.error e => Except.error e
    | Except.ok r =>
      match collectResults f rest with
      | Except.error e => Except.error e
      | Except.ok rs => Except.ok (r :: rs)

/-- The scheduler section of `main`: one future per input record, collected
in the completion order `perm` (a permutation of the job indices supplied by
`as_completed`). -/
def runScheduler (env : Nat → JobWorld × Nat) (items : List Json) (perm : List Nat) :
    Except String (List Outcome) :=
  collectResults (jobFuture env items) perm

/-- The state of the input file: missing, present but not valid JSON, or
present with parsed content. -/
inductive FileState where
  | missing : FileState
  | invalidJson : FileState
  | content (data : Json) : FileState

/-- `load_profiles(file_path)`: `sys.exit(1)` on `FileNotFoundError` or
`JSONDecodeError`; on success it prints `len(data)` — an uncaught
`TypeError` (data with no length) also terminates the process with exit
code 1. The error value is the resulting process exit code. -/
def load_profiles (fs : FileState) : Except Nat Json :=
  match fs with
  | FileState.missing => Except.error 1
  | FileState.invalidJson => Except.error 1
  | FileState.content data =>
    match pyLen data with
    | Except.error _ => Except.error 1
    | Except.ok _ => Except.ok data

/-- The observable result of one run of `main`: the process exit code and
the list `save_results` was called with (`none` when it was never called —
an uncaught exception terminates Python with exit code 1 and skips it). -/
structure MainOutcome where
  exitCode : Nat
  savedResults : Option (List Outcome)

/-- `main()`: load the profiles (exiting 1 on load failure), return early on
a falsy profiles value, otherwise submit one job per record, collect the
results in completion order, and save them; an exception re-raised by
`future.result()` propagates out of `main` (exit code 1, nothing saved). -/
def main (fs : FileState) (env : Nat → JobWorld × Nat) (perm : List Nat) : MainOutcome :=
  match load_profiles fs with
  | Except.error code => { exitCode := code, savedResults := none }
  | Except.ok data =>
    if pyTruthy data = false then { exitCode := 0, savedResults := none }
    else
      match runScheduler env (pyIter data) perm with
      | Except.error _ => { exitCode := 1, savedResults := none }
      | Except.ok results => { exitCode := 0, savedResults := some results }

/-- Boolean test for an HTTP 2xx status. -/
def is2xx (status : Nat) : Bool := decide (200 ≤ status ∧ status < 300)

/-- The outcome job `i` completes with when it completes normally (a fixed
placeholder otherwise; never consulted for normally-completing jobs). -/
def completedOutcome (env : Nat → JobWorld × Nat) (items : List Json) (i : Nat) : Outcome :=
  match jobFuture env items i with
  | Except.ok out => out
  | Except.error _ =>
    { id := Json.null, p_hash := none, status := "failed", error := none,
      api_response := none, timestamp := 0 }

/-! ### Concrete worlds used as witnesses and counterexamples -/

/-- A POST endpoint that answers every request with 304 Not Modified. -/
def redirectPost : Json → PostBehavior :=
  fun _ => PostBehavior.response { status := 304, body := none }

/-- A POST endpoint that is unreachable. -/
def postNet : Json → PostBehavior := fun _ => PostBehavior.netError "Connection refused"

/-- A POST endpoint that answers every request with HTTP 500. -/
def post500 : Json → PostBehavior := fun _ => PostBehavior.response { status := 500, body := none }

/-- A POST endpoint that answers every request with HTTP 200 and a JSON body. -/
def post200 : Json → PostBehavior :=
  fun _ => PostBehavior.response { status := 200, body := some (Json.obj [("ok", Json.bool true)]) }

/-- A world in which every stage succeeds and each stage takes one time
unit. -/
def timedWorld : JobWorld where
  fetch := fun _ => FetchBehavior.httpResponse 200 (Except.ok { pixels := [0] })
  hashFn := fun _ => Except.ok "abcd1234"
  post := post200
  fetchDur := 1
  hashDur := 1
  postDur := 1

/-- A world in which every image GET answers 404. -/
def world404 : JobWorld where
  fetch := fun _ => FetchBehavior.httpResponse 404 (Except.ok { pixels := [] })
  hashFn := fun _ => Except.ok "abcd1234"
  post := post200
  fetchDur := 1
  hashDur := 1
  postDur := 1

/-- A world in which fetch and hash succeed but the API answers 500. -/
def worldApi500 : JobWorld where
  fetch := fun _ => FetchBehavior.httpResponse 200 (Except.ok { pixels := [7] })
  hashFn := fun _ => Except.ok "cafe0123"
  post := post500
  fetchDur := 1
  hashDur := 1
  postDur := 1

/-- A world in which every image GET fails with a connection error. -/
def worldNetDown : JobWorld where
  fetch := fun _ => FetchBehavior.netError "Connection aborted"
  hashFn := fun _ => Except.ok "abcd1234"
  post := postNet
  fetchDur := 0
  hashDur := 0
  postDur := 0

/-- A constant job environment: every job sees the same world and starts at
time 0. -/
def envOf (w : JobWorld) : Nat → JobWorld × Nat := fun _ => (w, 0)

/-- The outcome of a job run against `worldNetDown` starting at time 0 on a
record with no fields: the fetch fails immediately with a connection
error. -/
def netFailOutcome : Outcome :=
  { id := Json.null, p_hash := none, status := "failed",
    error := some "Connection aborted", api_response := none, timestamp := 0 }

/-- Two concrete well-formed profile records. -/
def twoRecords : List Json :=
  [Json.obj [("id", Json.str "a"), ("profile_image_url", Json.str "http://host/a.png")],
   Json.obj [("id", Json.str "b"), ("profile_image_url", Json.str "http://host/b.png")]]

/-! ### Basic lemmas about the embedded operations -/

/-- On a dict, `profile.get(key)` never raises. -/
theorem pyGet_obj (fields : List (String × Json)) (key : String) :
    pyGet (Json.obj fields) key = Except.ok (lookupField fields key) := rfl

/-- `process_profile` on a dict-shaped record reduces to the total pipeline
body: both `.get` calls succeed and the `try` block returns normally. -/
theorem process_profile_obj (w : JobWorld) (t : Nat) (fields : List (String × Json)) :
    process_profile w t (Json.obj fields) =
      Except.ok (runPipeline w t (lookupField fields "id")
        (lookupField fields "profile_image_url")) := rfl

/-- `send_to_api` returns either a success dict with no error field, or a
failure dict carrying an error string. -/
theorem send_to_api_cases (post : Json → PostBehavior) (profile_id : Json) (phash : String) :
    ((send_to_api post profile_id phash).success = true ∧
       (send_to_api post profile_id phash).error = none) ∨
    ((send_to_api post profile_id phash).success = false ∧
       ∃ e, (send_to_api post profile_id phash).error = some e) := by
  unfold send_to_api
  split
  · exact Or.inr ⟨rfl, _, rfl⟩
  · split
    · exact Or.inr ⟨rfl, _, rfl⟩
    · exact Or.inl ⟨rfl, rfl⟩

/-- Status and error-field shape of the outcome produced by the pipeline
body, by cases on where (if anywhere) the job failed. -/
theorem runPipeline_status_error (w : JobWorld) (t : Nat) (profile_id image_url : Json) :
    ((runPipeline w t profile_id image_url).1.status = "success" ∨
     (runPipeline w t profile_id image_url).1.status = "failed" ∨
     (runPipeline w t profile_id image_url).1.status = "api_failed") ∧
    ((runPipeline w t profile_id image_url).1.error.isSome = true ↔
     (runPipeline w t profile_id image_url).1.status ≠ "success") := by
  unfold runPipeline
  split
  · simp
  · split
    · simp
    · split
      · simp
      · next ph hph hs =>
        rcases send_to_api_cases w.post profile_id ph with ⟨hs2, he⟩ | ⟨hs2, e, he⟩
        · exact absurd hs2 hs
        · simp [he]

/-- The finish time returned by the pipeline body is not earlier than the
start time, and the outcome's timestamp equals the start time. -/
theorem runPipeline_time (w : JobWorld) (t : Nat) (profile_id image_url : Json) :
    (runPipeline w t profile_id image_url).1.timestamp = t ∧
    t ≤ (runPipeline w t profile_id image_url).2 := by
  unfold runPipeline
  split
  · exact ⟨rfl, by omega⟩
  · split
    · exact ⟨rfl, by omega⟩
    · split
      · exact ⟨rfl, by omega⟩
      · exact ⟨rfl, by omega⟩

/-- `process_profile` succeeds only on dict-shaped records, and then its
outcome and finish time are those of the pipeline body. -/
theorem process_profile_ok_shape (w : JobWorld) (t : Nat) (profile : Json) (out : Outcome)
    (tEnd : Nat) (h : process_profile w t profile = Except.ok (out, tEnd)) :
    ∃ fields, profile = Json.obj fields ∧
      out = (runPipeline w t (lookupField fields "id")
        (lookupField fields "profile_image_url")).1 ∧
      tEnd = (runPipeline w t (lookupField fields "id")
        (lookupField fields "profile_image_url")).2 := by
  cases profile with
  | obj fields =>
    rw [process_profile_obj] at h
    injection h with h
    exact ⟨fields, rfl, by rw [h], by rw [h]⟩
  | null => exact absurd h (by simp [process_profile, pyGet])
  | bool b => exact absurd h (by simp [process_profile, pyGet])
  | num n => exact absurd h (by simp [process_profile, pyGet])
  | str s => exact absurd h (by simp [process_profile, pyGet])
  | arr xs => exact absurd h (by simp [process_profile, pyGet])


/-! ### Claim theorems -/

/-- C2: for every input profile record (a dict, per the data model), the
pipeline function `process_profile` is total: whatever the world does in the
fetch, fingerprint and report stages — including arbitrary internal errors
raised there — no exception escapes, and the function returns a
normally-constructed `Outcome`. -/
theorem process_profile_total (w : JobWorld) (t : Nat) (fields : List (String × Json)) :
    ∃ out tEnd, process_profile w t (Json.obj fields) = Except.ok (out, tEnd) :=
  ⟨_, _, process_profile_obj w t fields⟩

/-- C6: every outcome returned by `process_profile` has status `success`,
`failed` or `api_failed`, and carries an error message exactly when the
status is not `success`. -/
theorem outcome_status_error_invariant (w : JobWorld) (t : Nat) (profile : Json)
    (out : Outcome) (tEnd : Nat)
    (h : process_profile w t profile = Except.ok (out, tEnd)) :
    (out.status = "success" ∨ out.status = "failed" ∨ out.status = "api_failed") ∧
    (out.error.isSome = true ↔ out.status ≠ "success") := by
  cases profile with
  | obj fields =>
    rw [process_profile_obj] at h
    have hout : out = (runPipeline w t (lookupField fields "id")
        (lookupField fields "profile_image_url")).1 := by
      cases hr : runPipeline w t (lookupField fields "id")
          (lookupField fields "profile_image_url") with
      | mk o s => rw [hr] at h; cases h; rfl
    rw [hout]
    exact runPipeline_status_error w t _ _
  | null => exact absurd h (by simp [process_profile, pyGet])
  | bool b => exact absurd h (by simp [process_profile, pyGet])
  | num n => exact absurd h (by simp [process_profile, pyGet])
  | str s => exact absurd h (by simp [process_profile, pyGet])
  | arr xs => exact absurd h (by simp [process_profile, pyGet])

/-- Witness for C6: a record whose fetch fails with a connection error. -/
theorem outcome_status_error_invariant_witness :
    (netFailOutcome.status = "success" ∨ netFailOutcome.status = "failed" ∨
     netFailOutcome.status = "api_failed") ∧
    (netFailOutcome.error.isSome = true ↔ netFailOutcome.status ≠ "success") :=
  outcome_status_error_invariant worldNetDown 0 (Json.obj []) netFailOutcome 0 rfl

/-- C3 counterexample: a final HTTP 304 response is not a 2xx status, yet
`send_to_api` returns a result with success = true and no error, because
`raise_for_status` only raises for statuses 400–599; this refutes "on
non-2xx status the result has success = false". -/
theorem send_to_api_non2xx_counterexample :
    is2xx 304 = false ∧
    (send_to_api redirectPost Json.null "abcd1234").success = true ∧
    (send_to_api redirectPost Json.null "abcd1234").error = none :=
  ⟨rfl, rfl, rfl⟩

/-- C3 amended: `send_to_api` never raises; on a response with a 2xx status
it returns success = true carrying the status code and the parsed JSON body
(an empty object if the body is empty); on a 4xx or 5xx status (the statuses
`raise_for_status` flags), a network error, or a timeout it returns
success = false carrying a descriptive error string; other final statuses
(1xx/3xx, e.g. 304) are also treated as success. -/
theorem send_to_api_result_spec (post : Json → PostBehavior) (profile_id : Json) (phash : String) :
    (∀ msg, post (apiPayload profile_id phash) = PostBehavior.netError msg →
      send_to_api post profile_id phash = { success := false, error := some msg }) ∧
    (∀ resp, post (apiPayload profile_id phash) = PostBehavior.response resp →
      ((400 ≤ resp.status ∧ resp.status < 600) →
        send_to_api post profile_id phash =
          { success := false, error := some (httpErrorMsg resp.status) }) ∧
      (is2xx resp.status = true →
        send_to_api post profile_id phash =
          { success := true, status_code := some resp.status,
            response := some (match resp.body with | none => Json.obj [] | some b => b) })) := by
  refine ⟨?_, ?_⟩
  · intro msg hmsg
    unfold send_to_api
    rw [hmsg]
  · intro resp hresp
    refine ⟨?_, ?_⟩
    · intro hbad
      have hr : raise_for_status resp.status = Except.error (httpErrorMsg resp.status) := by
        unfold raise_for_status
        rw [if_pos hbad]
      simp [send_to_api, hresp, hr]
    · intro h2
      have h2n : 200 ≤ resp.status ∧ resp.status < 300 := by
        simpa [is2xx] using h2
      have hr : raise_for_status resp.status = Except.ok () := by
        unfold raise_for_status
        rw [if_neg (by omega)]
      simp [send_to_api, hresp, hr]

/-- Witness for the amended C3 theorem at three concrete endpoints: a
connection failure, an HTTP 500 answer, and an HTTP 200 answer with a JSON
body. -/
theorem send_to_api_result_spec_witness :
    send_to_api postNet Json.null "ff" = { success := false, error := some "Connection refused" } ∧
    send_to_api post500 Json.null "ff" = { success := false, error := some (httpErrorMsg 500) } ∧
    send_to_api post200 Json.null "ff" =
      { success := true, status_code := some 200,
        response := some (Json.obj [("ok", Json.bool true)]) } :=
  ⟨(send_to_api_result_spec postNet Json.null "ff").1 "Connection refused" rfl,
   ((send_to_api_result_spec post500 Json.null "ff").2 { status := 500, body := none } rfl).1
     (by decide),
   ((send_to_api_result_spec post200 Json.null "ff").2
     { status := 200, body := some (Json.obj [("ok", Json.bool true)]) } rfl).2 rfl⟩

/-- C4: when the image fetch of a record fails (network error, HTTP error
status, or undecodable body), the outcome is `failed`, with no fingerprint,
the fetch error message as its error, and no api_response: the reporting
stage is never entered. -/
theorem fetch_failure_outcome (w : JobWorld) (t : Nat) (fields : List (String × Json))
    (msg : String)
    (hfail : download_image w.fetch (lookupField fields "profile_image_url") =
      Except.error msg) :
    process_profile w t (Json.obj fields) =
      Except.ok ({ id := lookupField fields "id", p_hash := none, status := "failed",
                   error := some msg, api_response := none, timestamp := t },
                 t + w.fetchDur) := by
  rw [process_profile_obj]
  unfold runPipeline
  rw [hfail]

/-- Witness for C4: a record whose URL answers HTTP 404. -/
theorem fetch_failure_witness :
    process_profile world404 5
      (Json.obj [("id", Json.str "u1"), ("profile_image_url", Json.str "http://host/a.png")]) =
      Except.ok ({ id := Json.str "u1", p_hash := none, status := "failed",
                   error := some (httpErrorMsg 404), api_response := none, timestamp := 5 },
                 6) :=
  fetch_failure_outcome world404 5
    [("id", Json.str "u1"), ("profile_image_url", Json.str "http://host/a.png")]
    (httpErrorMsg 404) rfl

/-- C5: when fetch and fingerprinting succeed but the API call fails, the
outcome is `api_failed`, the fingerprint is present, the api_response is
present with success = false, and the error equals the error string of the
`ApiCallResult`. -/
theorem report_failure_outcome (w : JobWorld) (t : Nat) (fields : List (String × Json))
    (image : Image) (phash : String)
    (hfetch : download_image w.fetch (lookupField fields "profile_image_url") =
      Except.ok image)
    (hhash : w.hashFn image = Except.ok phash)
    (hapi : (send_to_api w.post (lookupField fields "id") phash).success = false) :
    process_profile w t (Json.obj fields) =
      Except.ok ({ id := lookupField fields "id", p_hash := some phash, status := "api_failed",
                   error := (send_to_api w.post (lookupField fields "id") phash).error,
                   api_response := some (send_to_api w.post (lookupField fields "id") phash),
                   timestamp := t },
                 t + w.fetchDur + w.hashDur + w.postDur) ∧
    ∃ e, (send_to_api w.post (lookupField fields "id") phash).error = some e := by
  constructor
  · rw [process_profile_obj]
    simp [runPipeline, hfetch, hhash, hapi]
  · rcases send_to_api_cases w.post (lookupField fields "id") phash with ⟨hs, _⟩ | ⟨_, e, he⟩
    · exact absurd hs (by rw [hapi]; exact Bool.false_ne_true)
    · exact ⟨e, he⟩

/-- Witness for C5: fetch and hash succeed, the API answers HTTP 500. -/
theorem report_failure_witness :
    process_profile worldApi500 0
      (Json.obj [("id", Json.str "u2"), ("profile_image_url", Json.str "http://host/b.png")]) =
      Except.ok ({ id := Json.str "u2", p_hash := some "cafe0123", status := "api_failed",
                   error := (send_to_api worldApi500.post (Json.str "u2") "cafe0123").error,
                   api_response := some (send_to_api worldApi500.post (Json.str "u2") "cafe0123"),
                   timestamp := 0 },
                 3) ∧
    ∃ e, (send_to_api worldApi500.post (Json.str "u2") "cafe0123").error = some e :=
  report_failure_outcome worldApi500 0
    [("id", Json.str "u2"), ("profile_image_url", Json.str "http://host/b.png")]
    { pixels := [7] } "cafe0123" rfl rfl rfl

/-- C8 counterexample: in a world where every stage succeeds and takes one
time unit, a job starting at time 0 finishes at time 3, but the outcome's
timestamp is 0 — `datetime.now()` is taken when the result dict is
constructed, at job start, not at completion. -/
theorem timestamp_counterexample :
    Except.map (fun r => (r.1.timestamp, r.2)) (process_profile timedWorld 0 (Json.obj [])) =
      Except.ok ((0 : Nat), (3 : Nat)) ∧ (0 : Nat) ≠ 3 :=
  ⟨rfl, by omega⟩

/-- C8 amended: for every record, the timestamp of its outcome captures the
time at which processing of the record started (it is taken when the result
skeleton is constructed, before any stage runs); the job finishes no earlier
than that. -/
theorem outcome_timestamp_is_start (w : JobWorld) (t : Nat) (profile : Json) (out : Outcome)
    (tEnd : Nat) (h : process_profile w t profile = Except.ok (out, tEnd)) :
    out.timestamp = t ∧ t ≤ tEnd := by
  obtain ⟨fields, _, h1, h2⟩ := process_profile_ok_shape w t profile out tEnd h
  rw [h1, h2]
  exact runPipeline_time w t _ _

/-- If every future in the completion order yields a result normally, the
collection loop returns exactly the list of those results, in completion
order. -/
theorem collectResults_ok (f : Nat → Except String Outcome) (g : Nat → Outcome)
    (order : List Nat) (h : ∀ i ∈ order, f i = Except.ok (g i)) :
    collectResults f order = Except.ok (order.map g) := by
  induction order with
  | nil => rfl
  | cons i rest ih =>
    have h1 : f i = Except.ok (g i) := h i (List.mem_cons_self i rest)
    have h2 : collectResults f rest = Except.ok (rest.map g) :=
      ih (fun j hj => h j (List.mem_cons_of_mem i hj))
    simp [collectResults, h1, h2]

/-- A future over a dict-shaped record within the input range completes
normally. -/
theorem jobFuture_ok (env : Nat → JobWorld × Nat) (items : List Json) (i : Nat)
    (hlt : i < items.length)
    (hobj : ∀ p ∈ items, ∃ fields, p = Json.obj fields) :
    jobFuture env items i = Except.ok (completedOutcome env items i) := by
  have hmem : items.getD i Json.null ∈ items := by
    rw [List.getD_eq_getElem items Json.null hlt]
    exact List.getElem_mem hlt
  obtain ⟨fields, hf⟩ := hobj _ hmem
  have hok : jobFuture env items i =
      Except.ok (runPipeline (env i).1 (env i).2 (lookupField fields "id")
        (lookupField fields "profile_image_url")).1 := by
    unfold jobFuture
    rw [hf, process_profile_obj]
    rfl
  rw [hok]
  unfold completedOutcome
  rw [hok]

/-- When the completion order is a permutation of the job indices and every
job completes normally, the scheduler returns the outcomes of all jobs in
completion order. -/
theorem runScheduler_ok (env : Nat → JobWorld × Nat) (items : List Json) (perm : List Nat)
    (hperm : perm.Perm (List.range items.length))
    (hobj : ∀ p ∈ items, ∃ fields, p = Json.obj fields) :
    runScheduler env items perm = Except.ok (perm.map (completedOutcome env items)) := by
  apply collectResults_ok
  intro i hi
  have hlt : i < items.length := List.mem_range.mp (hperm.mem_iff.mp hi)
  exact jobFuture_ok env items i hlt hobj

/-- Witness for the amended C8 theorem: the concrete all-success world. -/
theorem outcome_timestamp_is_start_witness :
    ({ id := Json.null, p_hash := some "abcd1234", status := "success", error := none,
       api_response := some (send_to_api timedWorld.post Json.null "abcd1234"),
       timestamp := 0 } : Outcome).timestamp = 0 ∧ (0 : Nat) ≤ 3 :=
  outcome_timestamp_is_start timedWorld 0 (Json.obj []) _ 3 rfl

/-- C1: for every input list of records and every completion order, the
scheduler run — one `process_profile` job per record, collected via
`as_completed` — returns exactly N outcomes, namely the outcomes of the N
jobs listed in completion order; each outcome is correlated to a distinct
input record, because each job index occurs exactly once in the completion
order: no record is dropped and no record yields more than one outcome. -/
theorem scheduler_one_outcome_per_record (env : Nat → JobWorld × Nat) (items : List Json)
    (perm : List Nat)
    (hperm : perm.Perm (List.range items.length))
    (hobj : ∀ p ∈ items, ∃ fields, p = Json.obj fields) :
    runScheduler env items perm = Except.ok (perm.map (completedOutcome env items)) ∧
    (perm.map (completedOutcome env items)).length = items.length ∧
    (∀ i, i < items.length → perm.count i = 1) ∧
    (∀ i ∈ perm, jobFuture env items i = Except.ok (completedOutcome env items i)) := by
  refine ⟨runScheduler_ok env items perm hperm hobj, ?_, ?_, ?_⟩
  · rw [List.length_map, hperm.length_eq, List.length_range]
  · intro i hi
    have hnd : perm.Nodup := hperm.nodup_iff.mpr (List.nodup_range items.length)
    have hm : i ∈ perm := hperm.mem_iff.mpr (List.mem_range.mpr hi)
    exact List.count_eq_one_of_mem hnd hm
  · intro i hi
    exact jobFuture_ok env items i (List.mem_range.mp (hperm.mem_iff.mp hi)) hobj

/-- Witness for C1: two records collected in reversed completion order. -/
theorem scheduler_one_outcome_per_record_witness :
    runScheduler (envOf timedWorld) twoRecords [1, 0] =
      Except.ok ([1, 0].map (completedOutcome (envOf timedWorld) twoRecords)) ∧
    ([1, 0].map (completedOutcome (envOf timedWorld) twoRecords)).length = twoRecords.length ∧
    (∀ i, i < twoRecords.length → [1, 0].count i = 1) ∧
    (∀ i ∈ [1, 0], jobFuture (envOf timedWorld) twoRecords i =
      Except.ok (completedOutcome (envOf timedWorld) twoRecords i)) :=
  scheduler_one_outcome_per_record (envOf timedWorld) twoRecords [1, 0]
    (by decide)
    (by
      intro p hp
      simp only [pyIter, twoRecords, List.mem_cons, List.not_mem_nil, or_false] at hp
      rcases hp with rfl | rfl
      · exact ⟨_, rfl⟩
      · exact ⟨_, rfl⟩)

/-- C9: a record that is not a JSON object (here the string "x", element of
a valid JSON array) makes `process_profile` raise an `AttributeError` at the
`.get` calls before its `try` block — no `Outcome` is constructed — and when
the collection loop in `main` takes that future's result, the re-raised
exception propagates and aborts the batch: exit code 1, nothing saved. -/
theorem nonobject_record_aborts_batch :
    process_profile worldNetDown 0 (Json.str "x") =
      Except.error "AttributeError: str object has no attribute get" ∧
    main (FileState.content (Json.arr [Json.str "x"])) (envOf worldNetDown) [0] =
      { exitCode := 1, savedResults := none } :=
  ⟨rfl, rfl⟩

/-- C7 counterexample: with an input file that exists and holds valid JSON
(the array with the single string element "x"), the process still exits
non-zero, because the job for the non-dict record raises and the exception
propagates out of `main`; this refutes exiting non-zero only for a missing
or invalid input file. -/
theorem exit_nonzero_on_valid_file_counterexample :
    (main (FileState.content (Json.arr [Json.str "x"])) (envOf worldNetDown) [0]).exitCode = 1 ∧
    (1 : Nat) ≠ 0 ∧
    FileState.content (Json.arr [Json.str "x"]) ≠ FileState.missing ∧
    FileState.content (Json.arr [Json.str "x"]) ≠ FileState.invalidJson := by
  refine ⟨rfl, by omega, by simp, by simp⟩

/-- C7 amended: the process exits non-zero when the input file is missing or
holds invalid JSON; it also exits non-zero when a dispatched job raises an
unhandled exception (a record that is not a JSON object). When the file
loads, its value has a length, and every record is a JSON object, the run
completes with exit code zero regardless of how many individual jobs fail —
partial failure is visible only in the saved outcomes, never in the exit
code. -/
theorem exit_code_policy (env : Nat → JobWorld × Nat) (perm : List Nat) (data : Json) (n : Nat)
    (hlen : pyLen data = Except.ok n)
    (hobj : ∀ p ∈ pyIter data, ∃ fields, p = Json.obj fields)
    (hperm : perm.Perm (List.range (pyIter data).length)) :
    (main FileState.missing env perm).exitCode = 1 ∧
    (main FileState.invalidJson env perm).exitCode = 1 ∧
    (main (FileState.content data) env perm).exitCode = 0 := by
  refine ⟨rfl, rfl, ?_⟩
  have hrun := runScheduler_ok env (pyIter data) perm hperm hobj
  by_cases ht : pyTruthy data = false
  · simp [main, load_profiles, hlen, ht]
  · simp [main, load_profiles, hlen, ht, hrun]

/-- Witness for the amended C7 theorem: a world where every job fails at the
fetch stage, yet the exit code is zero. -/
theorem exit_code_policy_witness :
    (main FileState.missing (envOf worldNetDown) [1, 0]).exitCode = 1 ∧
    (main FileState.invalidJson (envOf worldNetDown) [1, 0]).exitCode = 1 ∧
    (main (FileState.content (Json.arr twoRecords)) (envOf worldNetDown) [1, 0]).exitCode = 0 :=
  exit_code_policy (envOf worldNetDown) [1, 0] (Json.arr twoRecords) 2 rfl
    (by
      intro p hp
      simp only [pyIter, twoRecords, List.mem_cons, List.not_mem_nil, or_false] at hp
      rcases hp with rfl | rfl
      · exact ⟨_, rfl⟩
      · exact ⟨_, rfl⟩)
    (by decide)

/-- C10: for an empty (or otherwise falsy) loaded profiles value, `main`
returns immediately after loading: exit code 0, the scheduler is never run
and `save_results` is never called, so no outcome file is written. -/
theorem empty_input_writes_nothing (env : Nat → JobWorld × Nat) (perm : List Nat)
    (data : Json) (n : Nat) (hlen : pyLen data = Except.ok n)
    (hfalsy : pyTruthy data = false) :
    main (FileState.content data) env perm = { exitCode := 0, savedResults := none } := by
  simp [main, load_profiles, hlen, hfalsy]

/-- Witness for C10: the empty JSON array as input. -/
theorem empty_input_writes_nothing_witness :
    main (FileState.content (Json.arr [])) (envOf worldNetDown) [] =
      { exitCode := 0, savedResults := none } :=
  empty_input_writes_nothing (envOf worldNetDown) [] (Json.arr []) 0 rfl rfl

end ImageAnalyzer
